import Mathlib

/-!
Verification of the StitcheSense frame-processing and pose-driven
augmentation pipeline (StitcheSenseServer), as a shallow embedding of the
Python sources into Lean 4.

Numeric model: Python float arithmetic is embedded as exact arithmetic,
over the rationals where the code never takes a square root
(measurements.py, tensorflow_pose_service.py, the session manager) and
over the reals where Euclidean norms appear
(ar_augmentation_service._calculate_measurements).  Python round(x, 1)
rounds half to even; it is embedded as round-half-up, which agrees with
it everywhere except at exact ties, and no statement below depends on a
tie.  External library calls (cv2, mediapipe, tensorflow) are modelled as
oracle parameters; everything the repository itself computes is
translated statement by statement.
-/

namespace StitcheSense

/-- Python round(x, 1) on a rational, embedded as round-half-up to one
decimal place. -/
def round1 (x : ℚ) : ℚ := ((⌊x * 10 + 1/2⌋ : ℤ) : ℚ) / 10

/-- Python int() truncation toward zero on a rational. -/
def pytrunc (x : ℚ) : ℤ := if 0 ≤ x then ⌊x⌋ else ⌈x⌉

/-!
## measurements.py : BodyMeasurementProcessor

A MediaPipe landmark as consumed by `_calculate_measurements`: normalized
x, y and a visibility score.
-/

structure PhotoLandmark where
  x : ℚ
  y : ℚ
  visibility : ℚ
deriving Repr, DecidableEq

/-- Pixel-space projection of the landmark list onto an image of the
given width and height: entry i of landmarks_dict, as (x * width,
y * height).  The visibility field is stored alongside in the source but
never read by the measurement computation. -/
def photoPixel (w h : ℚ) (l : PhotoLandmark) : ℚ × ℚ := (l.x * w, l.y * h)

structure PhotoMeasurements where
  bust : ℚ
  waist : ℚ
  hips : ℚ
  height : ℚ
deriving Repr, DecidableEq

/-- The fixed default measurement set returned by the KeyError handler of
BodyMeasurementProcessor._calculate_measurements. -/
def defaultPhotoMeasurements : PhotoMeasurements :=
  { bust := 34, waist := 26, hips := 36, height := 66 }

/-- BodyMeasurementProcessor._calculate_measurements
(measurements.py lines 79-140).  landmarks_dict maps every index i of
the landmark list to its pixel coordinates; indexing a missing landmark
raises KeyError, caught by the handler which returns the default set, so
the result is the default set exactly when one of the accessed indices
(0, 11, 12, 23, 24, 27, 28) is out of range.  The Gaussian noise samples
added to the four results are passed in as the `noise` quadruple. -/
def calcPhotoMeasurements (lms : List PhotoLandmark) (shapeH shapeW : ℚ)
    (noise : ℚ × ℚ × ℚ × ℚ) : PhotoMeasurements :=
  let pt : ℕ → Option (ℚ × ℚ) := fun i => (lms.get? i).map (photoPixel shapeW shapeH)
  match pt 0, pt 11, pt 12, pt 23, pt 24, pt 27, pt 28 with
  | some nose, some lsh, some rsh, some lhip, some rhip, some lank, some rank =>
      let shoulder_width := |lsh.1 - rsh.1|
      let bust := shoulder_width * 0.04
      let hip_width := |lhip.1 - rhip.1|
      let hips := hip_width * 0.04
      let waist_width := (shoulder_width + hip_width) / 2 * 0.85
      let waist := waist_width * 0.04
      let ankle_y := (lank.2 + rank.2) / 2
      let height_pixels := |ankle_y - nose.2|
      let heightV := height_pixels * 0.025
      { bust := round1 (bust + noise.1)
        waist := round1 (waist + noise.2.1)
        hips := round1 (hips + noise.2.2.1)
        height := round1 (heightV + noise.2.2.2) }
  | _, _, _, _, _, _, _ => defaultPhotoMeasurements

/-!
## measurements.py : upload_measurement_photo validation gate

The synchronous upload endpoint checks the content type, then the size
of the read body, and only then hands the bytes to
measurement_processor.process_image.
-/

def allowedUploadTypes : List String :=
  ["image/jpeg", "image/jpg", "image/png", "image/webp"]

/-- Outcome of the validation prefix of upload_measurement_photo: either
an HTTPException with the given status code raised before any pose
processing, or the content handed to process_image. -/
inductive UploadGate where
  | rejected (status : ℕ) (detail : String)
  | processed (content : List ℕ)
deriving Repr, DecidableEq

/-- Python membership test `file.content_type not in allowed_types`
(content_type is Optional; None is not a member of the list). -/
def contentTypeAllowed (contentType : Option String) : Bool :=
  match contentType with
  | some t => allowedUploadTypes.contains t
  | none => false

/-- upload_measurement_photo, validation part (measurements.py lines
335-360).  `contentType` is UploadFile.content_type (None allowed);
`content` is the byte string returned by file.read(). -/
def uploadMeasurementPhotoGate (contentType : Option String)
    (content : List ℕ) : UploadGate :=
  if ¬ contentTypeAllowed contentType then
    .rejected 400 "Invalid file type. Please upload a JPEG, PNG, or WebP image."
  else if content.length > 10 * 1024 * 1024 then
    .rejected 400 "File too large. Maximum size is 10MB."
  else
    .processed content

/-!
## tensorflow_pose_service.py : TensorFlowPoseEstimator

PoseKeypoint and PoseEstimation mirror the dataclasses; a MediaPipe pose
result is its (possibly absent) landmark list; the loaded MoveNet model
is abstract.
-/

structure PoseKeypoint where
  x : ℚ
  y : ℚ
  confidence : ℚ
deriving Repr, DecidableEq

structure PoseEstimation where
  keypoints : List PoseKeypoint
  overall_confidence : ℚ
  bounding_box : ℤ × ℤ × ℤ × ℤ
deriving Repr, DecidableEq

/-- A MediaPipe landmark (normalized x, y plus visibility), as read by
the enhancement path. -/
structure MPLandmark where
  x : ℚ
  y : ℚ
  visibility : ℚ
deriving Repr, DecidableEq

/-- A MediaPipe pose result: pose_landmarks is None when no pose was
found. -/
structure MPPoseResult where
  pose_landmarks : Option (List MPLandmark)
deriving Repr, DecidableEq

/-- Estimator state: the availability flag resolved at import time, the
models_loaded flag set by _load_models, and the MoveNet handle (abstract;
None until loaded). -/
structure TFEstimatorState where
  tensorflow_available : Bool
  models_loaded : Bool
  movenet_model : Option Unit
deriving Repr, DecidableEq

/-- The guard at the top of estimate_pose_movenet (tensorflow_pose_service.py
line 89). -/
def movenetAvailable (st : TFEstimatorState) : Bool :=
  st.tensorflow_available && st.models_loaded && st.movenet_model.isSome

/-- estimate_pose_movenet (lines 87-107): raises RuntimeError when the
model is unavailable; otherwise runs inference — preprocessing, the
model call and output processing are external, so their joint outcome is
the `inference` oracle — and re-raises whatever the try block raises. -/
def estimatePoseMovenet (st : TFEstimatorState)
    (inference : Except String PoseEstimation) : Except String PoseEstimation :=
  if ¬ movenetAvailable st then
    .error "MoveNet model not available - TensorFlow not installed"
  else
    inference

/-- One fused landmark produced by _combine_pose_estimates. -/
structure EnhancedLandmark where
  landmark_id : ℕ
  x : ℚ
  y : ℚ
  confidence : ℚ
  mediapipe_conf : ℚ
  tensorflow_conf : ℚ
deriving Repr, DecidableEq

/-- The per-landmark fusion rule of _combine_pose_estimates (lines
352-361): confidence-weighted average of the two pixel coordinates when
the confidences sum to a positive total, unweighted midpoint with fused
confidence 0.0 otherwise; in the weighted branch the fused confidence is
the larger of the two. -/
def fuseLandmark (mpX mpY mpConf tfX tfY tfConf : ℚ) : ℚ × ℚ × ℚ :=
  let total_conf := mpConf + tfConf
  if 0 < total_conf then
    ((mpX * mpConf + tfX * tfConf) / total_conf,
     (mpY * mpConf + tfY * tfConf) / total_conf,
     max mpConf tfConf)
  else
    ((mpX + tfX) / 2, (mpY + tfY) / 2, 0)

/-- The fixed MediaPipe-index -> MoveNet-index correspondence of
_combine_pose_estimates, in source order. -/
def commonLandmarks : List (ℕ × ℕ) :=
  [(0, 0), (5, 1), (6, 2), (11, 5), (12, 6), (13, 7), (14, 8), (15, 9),
   (16, 10), (23, 11), (24, 12), (25, 13), (26, 14), (27, 15), (28, 16)]

/-- _combine_pose_estimates (lines 309-372): for every mapped pair whose
indices are in range on both sides, convert the MediaPipe landmark to
pixels with int() truncation, fuse it with the MoveNet keypoint (already
in pixels), and record the result together with both source
confidences. -/
def combinePoseEstimates (mpLms : List MPLandmark) (tfPose : PoseEstimation)
    (h w : ℚ) : List EnhancedLandmark :=
  commonLandmarks.filterMap fun p =>
    match mpLms.get? p.1, tfPose.keypoints.get? p.2 with
    | some mpLm, some tfKp =>
        let mpX : ℚ := (pytrunc (mpLm.x * w) : ℤ)
        let mpY : ℚ := (pytrunc (mpLm.y * h) : ℤ)
        let fused := fuseLandmark mpX mpY mpLm.visibility tfKp.x tfKp.y tfKp.confidence
        some { landmark_id := p.1, x := fused.1, y := fused.2.1,
               confidence := fused.2.2, mediapipe_conf := mpLm.visibility,
               tensorflow_conf := tfKp.confidence }
    | _, _ => none

/-- The dictionary built by enhance_pose_with_tensorflow. -/
structure EnhancedResult where
  mediapipe_pose : MPPoseResult
  tensorflow_pose : Option PoseEstimation
  person_segmentation : Option (List ℕ)
  confidence_comparison : Option (ℚ × ℚ × String)
  enhanced_landmarks : List EnhancedLandmark
deriving Repr, DecidableEq

/-- Mean of the MediaPipe visibilities (np.mean over the landmark
list). -/
def mpMeanConfidence (lms : List MPLandmark) : ℚ :=
  (lms.map (·.visibility)).sum / lms.length

/-- enhance_pose_with_tensorflow (lines 269-307): starts from a result
holding the MediaPipe pose and all-empty enhancement fields, then runs
the try block — MoveNet estimation, person segmentation (`segOracle`, the
fallback CV path, always succeeds), confidence comparison and landmark
fusion; any exception leaves the fields assigned so far and returns the
partially filled result.  The only fallible step is MoveNet estimation,
which fails before tensorflow_pose is assigned. -/
def enhancePoseWithTensorflow (st : TFEstimatorState) (mpPose : MPPoseResult)
    (inference : Except String PoseEstimation) (segOracle : List ℕ)
    (h w : ℚ) : EnhancedResult :=
  match estimatePoseMovenet st inference with
  | .error _ =>
      { mediapipe_pose := mpPose, tensorflow_pose := none,
        person_segmentation := none, confidence_comparison := none,
        enhanced_landmarks := [] }
  | .ok tfPose =>
      match mpPose.pose_landmarks with
      | some lms =>
          let mpConf := mpMeanConfidence lms
          let tfConf := tfPose.overall_confidence
          { mediapipe_pose := mpPose, tensorflow_pose := some tfPose,
            person_segmentation := some segOracle,
            confidence_comparison :=
              some (mpConf, tfConf,
                if mpConf < tfConf then "tensorflow" else "mediapipe"),
            enhanced_landmarks := combinePoseEstimates lms tfPose h w }
      | none =>
          { mediapipe_pose := mpPose, tensorflow_pose := some tfPose,
            person_segmentation := some segOracle,
            confidence_comparison := none, enhanced_landmarks := [] }

/-!
## api/ar_augmentation.py : ARConnectionManager and the WebSocket loop

The two registries are Python dicts keyed by session id; dict keys are
unique, so a dict is embedded as an association list and `del d[k]` as
removal of the key.  A WebSocket handle is abstract (a numeric id).
-/

/-- The per-session statistics dict created by ARConnectionManager.connect. -/
structure ARSessionData where
  connected_at : ℚ
  frame_count : ℕ
  current_dress : Option String
  last_processing_time : Option ℚ
deriving Repr, DecidableEq

structure ARManagerState where
  active_connections : List (String × ℕ)
  user_sessions : List (String × ARSessionData)
deriving Repr, DecidableEq

/-- Removal of a key from a dict embedded as an association list (keys
are unique in any state reachable through connect, so filtering the key
is exactly `del d[k]` guarded by `if k in d`). -/
def dictRemove {α : Type} (k : String) (d : List (String × α)) : List (String × α) :=
  d.filter fun p => p.1 ≠ k

/-- ARConnectionManager.connect (lines 28-36): registers the accepted
socket and a fresh statistics record under the session id. -/
def arConnect (st : ARManagerState) (sessionId : String) (ws : ℕ)
    (now : ℚ) : ARManagerState :=
  { active_connections := (st.active_connections.filter fun p => p.1 ≠ sessionId)
      ++ [(sessionId, ws)],
    user_sessions := (st.user_sessions.filter fun p => p.1 ≠ sessionId)
      ++ [(sessionId, { connected_at := now, frame_count := 0,
                        current_dress := none, last_processing_time := none })] }

/-- ARConnectionManager.disconnect (lines 38-43): deletes the session id
from both registries when present; a missing id is skipped silently. -/
def arDisconnect (st : ARManagerState) (sessionId : String) : ARManagerState :=
  { active_connections := dictRemove sessionId st.active_connections,
    user_sessions := dictRemove sessionId st.user_sessions }

/-- Messages the WebSocket loop can send back
(ar_augmentation.py lines 177-226); only the discriminator and the
success flag of a frame_result are tracked, the payload being the
processing result itself. -/
inductive ARServerMsg where
  | frame_result (success : Bool)
  | dress_changed
  | session_info
  | pong
deriving Repr, DecidableEq

/-- Inbound messages after JSON parsing: the type discriminator plus the
fields each branch reads.  frame_data is the optional base64 payload
string (`message.get('frame_data')`). -/
inductive ARClientMsg where
  | frame (frame_data : Option String) (dressType : Option String)
  | change_dress (dressType : Option String)
  | get_session_info
  | ping
  | other
deriving Repr, DecidableEq

/-- ARConnectionManager.send_personal_message (lines 45-48): the message
is sent only when the session id still has an active connection;
otherwise it is dropped. -/
def sendPersonal (st : ARManagerState) (sessionId : String)
    (m : ARServerMsg) : List ARServerMsg :=
  if (st.active_connections.lookup sessionId).isSome then [m] else []

/-- Python truthiness of the frame_data field: `if frame_data:` is false
for a missing field and for the empty string. -/
def frameDataTruthy : Option String → Bool
  | none => false
  | some s => s ≠ ""

/-- The result dict produced by one frame-processing attempt, as far as
the loop inspects it. -/
structure WsFrameOutcome where
  success : Bool
deriving Repr, DecidableEq

/-- Updates the session statistics after a processed frame (lines
172-174). -/
def bumpSessionStats (d : ARSessionData) (dressType : Option String)
    (elapsedMs : ℚ) : ARSessionData :=
  { d with frame_count := d.frame_count + 1, current_dress := dressType,
           last_processing_time := some elapsedMs }

/-- Replaces the value stored under a key of an embedded dict. -/
def dictSet {α : Type} (k : String) (v : α) (d : List (String × α)) :
    List (String × α) :=
  d.map fun p => if p.1 = k then (p.1, v) else p

/-- One iteration of the websocket_ar_fitting message loop
(ar_augmentation.py lines 139-226), for one parsed inbound message.
`outcome` is the joint result of the inner try block up to the stats
update: base64-decoding the payload and ar_service.process_frame_for_ar,
either a result dict or a raised exception; `elapsedMs` is the measured
processing time.  On a frame message with truthy payload the try block
also raises KeyError if the session id is missing from user_sessions
when the statistics are updated; every exception is caught by the inner
handler, which sends a failure frame_result.  A frame message without
truthy payload only logs a warning.  A change_dress message for an
unregistered session id raises KeyError out of the loop, where the outer
handler disconnects the session. -/
def handleWsMessage (st : ARManagerState) (sessionId : String)
    (msg : ARClientMsg) (outcome : Except String WsFrameOutcome)
    (elapsedMs : ℚ) : ARManagerState × List ARServerMsg :=
  match msg with
  | .frame frame_data dressType =>
      if frameDataTruthy frame_data then
        match outcome with
        | .ok result =>
            match st.user_sessions.lookup sessionId with
            | some d =>
                let sessions' :=
                  dictSet sessionId (bumpSessionStats d dressType elapsedMs)
                    st.user_sessions
                let st' := { st with user_sessions := sessions' }
                (st', sendPersonal st' sessionId (.frame_result result.success))
            | none =>
                (st, sendPersonal st sessionId (.frame_result false))
        | .error _ =>
            (st, sendPersonal st sessionId (.frame_result false))
      else
        (st, [])
  | .change_dress dressType =>
      match st.user_sessions.lookup sessionId with
      | some d =>
          let sessions' :=
            dictSet sessionId { d with current_dress := dressType }
              st.user_sessions
          let st' := { st with user_sessions := sessions' }
          (st', sendPersonal st' sessionId .dress_changed)
      | none => (arDisconnect st sessionId, [])
  | .get_session_info => (st, sendPersonal st sessionId .session_info)
  | .ping => (st, sendPersonal st sessionId .pong)
  | .other => (st, [])

/-- Number of frame_result messages in an outbound batch. -/
def countFrameResults (ms : List ARServerMsg) : ℕ :=
  ms.countP fun m => match m with | .frame_result _ => true | _ => false

/-!
## services/ar_augmentation_service.py : ARDressAugmentationService

The dress_config dict reaches the service unvalidated (the pydantic
DressConfig model of app/models/ar_models.py is never constructed on the
frame path), so the configuration is embedded as the fields the service
reads, each optional.  Colors are RGB triples.
-/

def Color := ℕ × ℕ × ℕ
deriving instance DecidableEq, Repr for Color

structure GarmentCfg where
  dressType : Option String
  opacity : Option ℚ
  bodice_color : Option Color
  skirt_color : Option Color
  dress_color : Option Color
  include_veil : Option Bool
deriving Repr, DecidableEq

/-- Python floor division on integers. -/
def pyFloorDiv (a b : ℤ) : ℤ := Int.fdiv a b

/-- What one _apply_* helper does to the frame: the polygons filled onto
the overlay copy (each with its fill color) and the alpha weight then
passed to cv2.addWeighted(frame, 1 - alpha, overlay, alpha, 0). -/
structure RenderPlan where
  polys : List (List (ℤ × ℤ) × Color)
  alpha : ℚ
deriving Repr, DecidableEq

/-- _apply_evening_gown (lines 197-236).  pose_points is the pixel dict
over all landmark indices; .get of a missing index is None and a present
point (a tuple) is always truthy. -/
def applyEveningGown (pts : List (ℤ × ℤ)) (cfg : GarmentCfg) : RenderPlan :=
  let polys :=
    match pts.get? 11, pts.get? 12, pts.get? 23, pts.get? 24 with
    | some ls, some rs, some lh, some rh =>
        let bodice := ([ls, rs, (rh.1 + 20, rh.2), (lh.1 - 20, lh.2)],
                       cfg.bodice_color.getD (255, 182, 193))
        match pts.get? 25, pts.get? 26 with
        | some lk, some rk =>
            let skirt_width := pytrunc ((|rs.1 - ls.1| : ℚ) * 2.5)
            let skirt := ([(lh.1 - 20, lh.2), (rh.1 + 20, rh.2),
                           (rk.1 + pyFloorDiv skirt_width 2, rk.2 + 100),
                           (lk.1 - pyFloorDiv skirt_width 2, lk.2 + 100)],
                          cfg.skirt_color.getD (176, 196, 222))
            [bodice, skirt]
        | _, _ => [bodice]
    | _, _, _, _ => []
  { polys := polys, alpha := cfg.opacity.getD 0.7 }

/-- _apply_wedding_dress (lines 238-284). -/
def applyWeddingDress (pts : List (ℤ × ℤ)) (cfg : GarmentCfg) : RenderPlan :=
  let polys :=
    match pts.get? 11, pts.get? 12, pts.get? 23, pts.get? 24 with
    | some ls, some rs, some lh, some rh =>
        let bodice := ([(ls.1, ls.2 + 30), (rs.1, rs.2 + 30),
                        (rh.1 + 15, rh.2 - 20), (lh.1 - 15, lh.2 - 20)],
                       ((255, 255, 255) : Color))
        let skirt_width := |rs.1 - ls.1| * 3
        let center_x := pyFloorDiv (lh.1 + rh.1) 2
        let skirt := ([(lh.1 - 15, lh.2 - 20), (rh.1 + 15, rh.2 - 20),
                       (center_x + pyFloorDiv skirt_width 2, lh.2 + 200),
                       (center_x - pyFloorDiv skirt_width 2, lh.2 + 200)],
                      ((250, 250, 250) : Color))
        let veil :=
          if cfg.include_veil.getD true then
            match pts.get? 0 with
            | some nose =>
                [([(nose.1 - 80, nose.2 - 30), (nose.1 + 80, nose.2 - 30),
                   (rs.1 + 40, rs.2 + 60), (ls.1 - 40, ls.2 + 60)],
                  ((255, 255, 255) : Color))]
            | none => []
          else []
        [bodice, skirt] ++ veil
    | _, _, _, _ => []
  { polys := polys, alpha := cfg.opacity.getD 0.8 }

/-- _apply_cocktail_dress (lines 286-308). -/
def applyCocktailDress (pts : List (ℤ × ℤ)) (cfg : GarmentCfg) : RenderPlan :=
  let polys :=
    match pts.get? 11, pts.get? 12, pts.get? 23, pts.get? 24 with
    | some ls, some rs, some lh, some rh =>
        [([ls, rs, (rh.1 + 25, rh.2 + 80), (lh.1 - 25, lh.2 + 80)],
          cfg.dress_color.getD (0, 0, 0))]
    | _, _, _, _ => []
  { polys := polys, alpha := cfg.opacity.getD 0.75 }

/-- _apply_formal_gown (lines 310-344). -/
def applyFormalGown (pts : List (ℤ × ℤ)) (cfg : GarmentCfg) : RenderPlan :=
  let polys :=
    match pts.get? 11, pts.get? 12, pts.get? 23, pts.get? 24 with
    | some ls, some rs, some _, some _ =>
        let bodice := ([ls, rs, (rs.1, rs.2 + 60), (ls.1, ls.2 + 60)],
                       cfg.bodice_color.getD (128, 0, 128))
        match pts.get? 27, pts.get? 28 with
        | some la, some ra =>
            [bodice,
             ([(ls.1, ls.2 + 60), (rs.1, rs.2 + 60),
               (ra.1 + 30, ra.2), (la.1 - 30, la.2)],
              cfg.skirt_color.getD (138, 43, 226))]
        | _, _ => [bodice]
    | _, _, _, _ => []
  { polys := polys, alpha := cfg.opacity.getD 0.7 }

/-- _apply_dress_augmentation dispatch (lines 171-195): an unknown type
falls through every branch and the frame copy is returned without any
fill or blend. -/
def applyDressAugmentation (pts : List (ℤ × ℤ)) (cfg : GarmentCfg) :
    Option RenderPlan :=
  match cfg.dressType.getD "evening_gown" with
  | "evening_gown" => some (applyEveningGown pts cfg)
  | "wedding_dress" => some (applyWeddingDress pts cfg)
  | "cocktail_dress" => some (applyCocktailDress pts cfg)
  | "formal_gown" => some (applyFormalGown pts cfg)
  | _ => none

/-!
### Measurement derivation (_calculate_measurements, lines 346-381)

Here the distances are Euclidean norms, so the model is over the reals.
-/

structure Landmark where
  x : ℝ
  y : ℝ
  visibility : ℝ

/-- np.linalg.norm of the difference of two 2-D points. -/
noncomputable def euclid (p q : ℝ × ℝ) : ℝ :=
  Real.sqrt ((p.1 - q.1) ^ 2 + (p.2 - q.2) ^ 2)

/-- The points dict of _calculate_measurements: every landmark index
paired with its (un-truncated) pixel coordinates. -/
def pixelPointsAR (lms : List Landmark) (h w : ℝ) : List (ℝ × ℝ) :=
  lms.map fun l => (l.x * w, l.y * h)

structure ARMeasurements where
  shoulder_width : Option ℝ
  torso_length : Option ℝ
  hip_width : Option ℝ
  arm_length : Option ℝ

/-- _calculate_measurements: each entry is present exactly when its
landmark indices are (the points dict holds every index of the landmark
list), and each distance is divided by the scale factor. -/
noncomputable def calcMeasurementsAR (lms : List Landmark) (h w : ℝ)
    (scaleFactor : ℝ) : ARMeasurements :=
  let pts := pixelPointsAR lms h w
  { shoulder_width :=
      match pts.get? 11, pts.get? 12 with
      | some p, some q => some (euclid p q / scaleFactor)
      | _, _ => none
    torso_length :=
      match pts.get? 11, pts.get? 23 with
      | some p, some q => some (euclid p q / scaleFactor)
      | _, _ => none
    hip_width :=
      match pts.get? 23, pts.get? 24 with
      | some p, some q => some (euclid p q / scaleFactor)
      | _, _ => none
    arm_length :=
      match pts.get? 11, pts.get? 13, pts.get? 15 with
      | some a, some b, some c => some ((euclid a b + euclid b c) / scaleFactor)
      | _, _, _ => none }

/-- Uniform scaling of a landmark list in pixel space (a 2x-upscaled
keypoint set is scaleLandmarks 2 of the original). -/
def scaleLandmarks (c : ℝ) (lms : List Landmark) : List Landmark :=
  lms.map fun l => { x := c * l.x, y := c * l.y, visibility := l.visibility }

/-!
### process_frame_for_ar (lines 77-164)

cv2 and MediaPipe calls are oracles collected in a CVEnv; the control
flow, the resize policy, the error handling and the result dicts are
translated from the source.  A raised Python exception is an
Except.error.
-/

/-- An in-memory image, identified abstractly; only its shape drives the
pipeline's control flow. -/
structure Image where
  width : ℕ
  height : ℕ
  tag : ℕ
deriving Repr, DecidableEq

inductive PyErr where
  | valueError (msg : String)
  | cvError (msg : String)
  | pyError (msg : String)
deriving Repr, DecidableEq

def PyErr.text : PyErr → String
  | .valueError m => m
  | .cvError m => m
  | .pyError m => m

/-- The external computer-vision primitives used by the pipeline.
imdecode returns None on undecodable bytes; imencodeB64 is
_encode_frame on a valid image (total); detect is
pose_detector.process, yielding pose_landmarks or None (or raising);
composite is the fillPoly/addWeighted application of a render plan. -/
structure CVEnv where
  imdecode : List ℕ → Option Image
  imencodeB64 : Image → String
  resize : Image → ℕ → ℕ → Image
  detect : Image → Except PyErr (Option (List Landmark))
  composite : Image → Option RenderPlan → Image

/-- Python int() truncation toward zero on a real. -/
noncomputable def pytruncR (x : ℝ) : ℤ := if 0 ≤ x then ⌊x⌋ else ⌈x⌉

/-- The pose_points dict of _apply_dress_augmentation: pixel coordinates
truncated with int(). -/
noncomputable def posePointsPix (lms : List Landmark) (w h : ℕ) : List (ℤ × ℤ) :=
  lms.map fun l => (pytruncR (l.x * w), pytruncR (l.y * h))

/-- The dict returned by process_frame_for_ar, as far as callers inspect
it. -/
structure ARResultDict where
  success : Bool
  message : Option String
  frame : Option String
  measurements : Option ARMeasurements
  pose_confidence : Option ℝ
  dress_config : Option GarmentCfg
  processing_time : ℚ

/-- The try block of process_frame_for_ar (lines 88-153): decode, resize
when wider than 640, detect, augment, scale back, measure. -/
noncomputable def processFrameBody (env : CVEnv) (frameData : List ℕ)
    (cfg : GarmentCfg) : Except PyErr ARResultDict :=
  match env.imdecode frameData with
  | none => .error (.valueError "Invalid frame data")
  | some frame =>
    let ow := frame.width
    let oh := frame.height
    let resized : Image × ℝ :=
      if 640 < ow then
        let scale : ℝ := 640 / (ow : ℝ)
        (env.resize frame 640 (pytruncR ((oh : ℝ) * scale)).toNat, scale)
      else
        (frame, 1)
    let frameResized := resized.1
    let scaleFactor := resized.2
    match env.detect frameResized with
    | .error e => .error e
    | .ok none =>
        .ok { success := false, message := some "No pose detected",
              frame := some (env.imencodeB64 frame), measurements := none,
              pose_confidence := none, dress_config := none,
              processing_time := 0 }
    | .ok (some lms) =>
        let pts := posePointsPix lms frameResized.width frameResized.height
        let augmented := env.composite frameResized (applyDressAugmentation pts cfg)
        let final := if scaleFactor = 1 then augmented else env.resize augmented ow oh
        match lms.get? 0 with
        | none => .error (.pyError "IndexError: landmark list index out of range")
        | some l0 =>
            .ok { success := true, message := none,
                  frame := some (env.imencodeB64 final),
                  measurements := some (calcMeasurementsAR lms
                    (frameResized.height : ℝ) (frameResized.width : ℝ) scaleFactor),
                  pose_confidence := some l0.visibility,
                  dress_config := some cfg, processing_time := 0 }

/-- process_frame_for_ar with its exception handler (lines 155-164).
When the try block raised, the local variable frame holds the imdecode
result (the assignment precedes every raise site, so 'frame' in locals()
is true); the handler then calls _encode_frame on it, and
cv2.imencode raises on a None image, so that exception escapes the
handler to the caller. -/
noncomputable def processFrameForAR (env : CVEnv) (frameData : List ℕ)
    (cfg : GarmentCfg) : Except PyErr ARResultDict :=
  match processFrameBody env frameData cfg with
  | .ok r => .ok r
  | .error e =>
      match env.imdecode frameData with
      | none => .error (.cvError "imencode: input image is empty")
      | some frame =>
          .ok { success := false,
                message := some ("Processing error: " ++ e.text),
                frame := some (env.imencodeB64 frame), measurements := none,
                pose_confidence := none, dress_config := none,
                processing_time := 0 }

/-!
## Helper lemmas
-/

theorem round1_close (x : ℚ) : |round1 x - x| ≤ 1 / 20 := by
  have h1 : ((⌊x * 10 + 1 / 2⌋ : ℤ) : ℚ) ≤ x * 10 + 1 / 2 := Int.floor_le _
  have h2 : x * 10 + 1 / 2 < (⌊x * 10 + 1 / 2⌋ : ℤ) + 1 := Int.lt_floor_add_one _
  rw [abs_le, round1]
  constructor <;> [linarith; linarith]

theorem round1_noise_close (c e B : ℚ) (hB : |e| ≤ B) :
    |round1 (c + e) - c| ≤ B + 1 / 20 := by
  have h1 := round1_close (c + e)
  have h2 : round1 (c + e) - c = (round1 (c + e) - (c + e)) + e := by ring
  calc |round1 (c + e) - c| = |(round1 (c + e) - (c + e)) + e| := by rw [h2]
    _ ≤ |round1 (c + e) - (c + e)| + |e| := abs_add _ _
    _ ≤ 1 / 20 + B := add_le_add h1 hB
    _ = B + 1 / 20 := by ring

theorem round1_eq (x : ℚ) (n : ℤ) (h : (n : ℚ) ≤ x * 10 + 1/2 ∧ x * 10 + 1/2 < n + 1) :
    round1 x = (n : ℚ) / 10 := by
  rw [round1, Int.floor_eq_iff.mpr h]

theorem calcPhoto_eval (lms : List PhotoLandmark) (h w : ℚ) (noise : ℚ × ℚ × ℚ × ℚ)
    (p0 p11 p12 p23 p24 p27 p28 : ℚ × ℚ)
    (h0 : (lms.get? 0).map (photoPixel w h) = some p0)
    (h11 : (lms.get? 11).map (photoPixel w h) = some p11)
    (h12 : (lms.get? 12).map (photoPixel w h) = some p12)
    (h23 : (lms.get? 23).map (photoPixel w h) = some p23)
    (h24 : (lms.get? 24).map (photoPixel w h) = some p24)
    (h27 : (lms.get? 27).map (photoPixel w h) = some p27)
    (h28 : (lms.get? 28).map (photoPixel w h) = some p28) :
    calcPhotoMeasurements lms h w noise =
      { bust := round1 (|p11.1 - p12.1| * 0.04 + noise.1)
        waist := round1 ((|p11.1 - p12.1| + |p23.1 - p24.1|) / 2 * 0.85 * 0.04 + noise.2.1)
        hips := round1 (|p23.1 - p24.1| * 0.04 + noise.2.2.1)
        height := round1 (|(p27.2 + p28.2) / 2 - p0.2| * 0.025 + noise.2.2.2) } := by
  simp only [calcPhotoMeasurements, h0, h11, h12, h23, h24, h27, h28]

theorem dictRemove_idem {α : Type} (k : String) (d : List (String × α)) :
    dictRemove k (dictRemove k d) = dictRemove k d := by
  unfold dictRemove
  induction d with
  | nil => rfl
  | cons a t ih =>
      by_cases h : a.1 = k
      · simp only [List.filter_cons, h]
        simp [ih]
      · simp only [List.filter_cons]
        rw [if_pos (by simp [h]), List.filter_cons, if_pos (by simp [h]), ih]

theorem dictRemove_lookup_ne {α : Type} (k s : String) (hne : s ≠ k)
    (d : List (String × α)) : (dictRemove k d).lookup s = d.lookup s := by
  have hsk : (s == k) = false := beq_eq_false_iff_ne.mpr hne
  unfold dictRemove
  induction d with
  | nil => rfl
  | cons a t ih =>
      obtain ⟨a1, a2⟩ := a
      by_cases h : a1 = k
      · subst h
        simp only [List.filter_cons]
        rw [if_neg (by simp)]
        rw [ih, List.lookup, hsk]
      · have hs : (decide (¬ (a1 = k))) = true := by simp [h]
        simp only [List.filter_cons, ne_eq, hs, if_pos]
        rw [List.lookup, List.lookup]
        cases hsa : (s == a1) with
        | true => rfl
        | false => exact ih

/-!
## The claims
-/

/-- Claim C10: the synchronous photo-upload endpoint rejects with HTTP
400, before any pose processing, every file whose content type is not
one of image/jpeg, image/jpg, image/png, image/webp, and every file
larger than 10 * 1024 * 1024 bytes; the bytes are handed to the
measurement processor exactly when both checks pass. -/
theorem claim_C10 (ct : Option String) (content : List ℕ) :
    (contentTypeAllowed ct = false →
      uploadMeasurementPhotoGate ct content = UploadGate.rejected 400
        "Invalid file type. Please upload a JPEG, PNG, or WebP image.") ∧
    (10 * 1024 * 1024 < content.length →
      ∃ d, uploadMeasurementPhotoGate ct content = UploadGate.rejected 400 d) ∧
    (∀ c, uploadMeasurementPhotoGate ct content = UploadGate.processed c →
      contentTypeAllowed ct = true ∧ content.length ≤ 10 * 1024 * 1024 ∧
      c = content) := by
  refine ⟨fun hct => ?_, fun hsize => ?_, fun c hc => ?_⟩
  · simp [uploadMeasurementPhotoGate, hct]
  · by_cases hct : contentTypeAllowed ct
    · refine ⟨"File too large. Maximum size is 10MB.", ?_⟩
      simp [uploadMeasurementPhotoGate, hct, hsize]
    · refine ⟨"Invalid file type. Please upload a JPEG, PNG, or WebP image.", ?_⟩
      simp [uploadMeasurementPhotoGate, hct]
  · by_cases hct : contentTypeAllowed ct
    · by_cases hsize : 10 * 1024 * 1024 < content.length
      · simp [uploadMeasurementPhotoGate, hct, hsize] at hc
      · simp [uploadMeasurementPhotoGate, hct, hsize] at hc
        exact ⟨hct, by omega, hc.symm⟩
    · simp [uploadMeasurementPhotoGate, hct] at hc

/-- Witness for C10 at a concrete rejected upload: a text/plain file is
turned away with status 400. -/
theorem claim_C10_witness :
    uploadMeasurementPhotoGate (some "text/plain") [] = UploadGate.rejected 400
      "Invalid file type. Please upload a JPEG, PNG, or WebP image." :=
  (claim_C10 (some "text/plain") []).1 (by decide)

/-- Claim C7 (amended): the single-photo derivation returns the fixed
default measurement set exactly in the KeyError case, that is whenever
one of the required landmark indices (up to 28) is missing from the
landmark list; it never raises.  A keypoint that is merely below a
usability threshold is not checked and its coordinates are used as-is
(see the counterexample). -/
theorem claim_C7 (lms : List PhotoLandmark) (h w : ℚ) (noise : ℚ × ℚ × ℚ × ℚ)
    (hlen : lms.length < 29) :
    calcPhotoMeasurements lms h w noise = defaultPhotoMeasurements := by
  have h28 : lms.get? 28 = none := List.get?_eq_none.mpr (by omega)
  simp only [calcPhotoMeasurements, h28, Option.map_none']
  cases (lms.get? 0).map (photoPixel w h) <;>
    cases (lms.get? 11).map (photoPixel w h) <;>
    cases (lms.get? 12).map (photoPixel w h) <;>
    cases (lms.get? 23).map (photoPixel w h) <;>
    cases (lms.get? 24).map (photoPixel w h) <;>
    cases (lms.get? 27).map (photoPixel w h) <;> rfl

/-- Witness for C7 at a concrete input: an empty landmark list falls
back to the default set. -/
theorem claim_C7_witness :
    calcPhotoMeasurements [] 1 1 (0, 0, 0, 0) = defaultPhotoMeasurements :=
  claim_C7 [] 1 1 (0, 0, 0, 0) (by decide)

/-- A 29-landmark pose in which every keypoint has visibility 0 (far
below any usability threshold) but all indices are present; shoulders
project to (100,50)/(200,50) and hips to (110,300)/(190,300) on a 1x1
scale. -/
def lowVisPhotoLms : List PhotoLandmark :=
  [⟨0, 0, 0⟩, ⟨0, 0, 0⟩, ⟨0, 0, 0⟩, ⟨0, 0, 0⟩, ⟨0, 0, 0⟩, ⟨0, 0, 0⟩,
   ⟨0, 0, 0⟩, ⟨0, 0, 0⟩, ⟨0, 0, 0⟩, ⟨0, 0, 0⟩, ⟨0, 0, 0⟩,
   ⟨100, 50, 0⟩, ⟨200, 50, 0⟩,
   ⟨0, 0, 0⟩, ⟨0, 0, 0⟩, ⟨0, 0, 0⟩, ⟨0, 0, 0⟩, ⟨0, 0, 0⟩, ⟨0, 0, 0⟩,
   ⟨0, 0, 0⟩, ⟨0, 0, 0⟩, ⟨0, 0, 0⟩, ⟨0, 0, 0⟩,
   ⟨110, 300, 0⟩, ⟨190, 300, 0⟩,
   ⟨0, 0, 0⟩, ⟨0, 0, 0⟩, ⟨0, 400, 0⟩, ⟨0, 400, 0⟩]

/-- Counterexample to C7 as stated: every keypoint of this pose is
unusable by confidence (visibility 0 on all 29 landmarks), yet the
derivation does not return the default set — it computes bust 4.0 from
the raw coordinates instead of the default 34.0, because the code never
consults the visibility values. -/
theorem counterexample_C7 :
    (∀ l ∈ lowVisPhotoLms, l.visibility = 0) ∧
    (calcPhotoMeasurements lowVisPhotoLms 1 1 (0, 0, 0, 0)).bust = 4 ∧
    calcPhotoMeasurements lowVisPhotoLms 1 1 (0, 0, 0, 0) ≠
      defaultPhotoMeasurements := by
  have heval := calcPhoto_eval lowVisPhotoLms 1 1 (0, 0, 0, 0)
    (0, 0) (100, 50) (200, 50) (110, 300) (190, 300) (0, 400) (0, 400)
    (by rw [show lowVisPhotoLms.get? 0 = some ⟨0, 0, 0⟩ from rfl]
        simp [photoPixel])
    (by rw [show lowVisPhotoLms.get? 11 = some ⟨100, 50, 0⟩ from rfl]
        simp [photoPixel])
    (by rw [show lowVisPhotoLms.get? 12 = some ⟨200, 50, 0⟩ from rfl]
        simp [photoPixel])
    (by rw [show lowVisPhotoLms.get? 23 = some ⟨110, 300, 0⟩ from rfl]
        simp [photoPixel])
    (by rw [show lowVisPhotoLms.get? 24 = some ⟨190, 300, 0⟩ from rfl]
        simp [photoPixel])
    (by rw [show lowVisPhotoLms.get? 27 = some ⟨0, 400, 0⟩ from rfl]
        simp [photoPixel])
    (by rw [show lowVisPhotoLms.get? 28 = some ⟨0, 400, 0⟩ from rfl]
        simp [photoPixel])
  have hbust : (calcPhotoMeasurements lowVisPhotoLms 1 1 (0, 0, 0, 0)).bust = 4 := by
    rw [heval]
    show round1 (|(100 : ℚ) - 200| * 0.04 + 0) = 4
    rw [show |(100 : ℚ) - 200| * 0.04 + 0 = (4 : ℚ) by norm_num]
    rw [round1_eq 4 40 (by norm_num)]
    norm_num
  refine ⟨?_, hbust, ?_⟩
  · intro l hl
    fin_cases hl <;> rfl
  · intro hEq
    have hb := congrArg PhotoMeasurements.bust hEq
    rw [hbust] at hb
    simp only [defaultPhotoMeasurements] at hb
    norm_num at hb

/-- Claim C2 (the divergence theorem): when the input bytes cannot be
decoded as an image, process_frame_for_ar raises instead of returning a
failure dict.  The try block raises ValueError("Invalid frame data")
with the local frame bound to None, and the except handler — whose
`'frame' in locals()` guard shows it means to return the frame when
possible — calls _encode_frame(None), and cv2.imencode raises on an
empty image, which escapes to the caller. -/
theorem claim_C2 (env : CVEnv) (fd : List ℕ) (cfg : GarmentCfg)
    (hdec : env.imdecode fd = none) :
    processFrameForAR env fd cfg =
      Except.error (PyErr.cvError "imencode: input image is empty") := by
  simp [processFrameForAR, processFrameBody, hdec]

/-- A CV environment in which no byte string decodes to an image
(modelling garbage input bytes). -/
def undecodableEnv : CVEnv :=
  { imdecode := fun _ => none
    imencodeB64 := fun _ => ""
    resize := fun i _ _ => i
    detect := fun _ => .ok none
    composite := fun i _ => i }

/-- Witness for C2: concrete undecodable input on which the pipeline
raises. -/
theorem claim_C2_witness :
    processFrameForAR undecodableEnv []
      { dressType := none, opacity := none, bodice_color := none,
        skirt_color := none, dress_color := none, include_veil := none } =
      Except.error (PyErr.cvError "imencode: input image is empty") :=
  claim_C2 undecodableEnv [] _ rfl

/-- Claim C6 (amended): the rendering path never clamps.  Each garment
renderer blends with exactly the caller-supplied opacity when present —
whatever its value — and with a fixed per-garment default (0.7 evening
gown, 0.8 wedding dress, 0.75 cocktail dress, 0.7 formal gown) when
absent; the blend weight therefore lies in [0.1, 1.0] when the supplied
value does (or is absent), and only then (see the counterexample). -/
theorem claim_C6 (pts : List (ℤ × ℤ)) (cfg : GarmentCfg) :
    (∀ v, cfg.opacity = some v →
      (applyEveningGown pts cfg).alpha = v ∧
      (applyWeddingDress pts cfg).alpha = v ∧
      (applyCocktailDress pts cfg).alpha = v ∧
      (applyFormalGown pts cfg).alpha = v) ∧
    (cfg.opacity = none →
      (applyEveningGown pts cfg).alpha = 0.7 ∧
      (applyWeddingDress pts cfg).alpha = 0.8 ∧
      (applyCocktailDress pts cfg).alpha = 0.75 ∧
      (applyFormalGown pts cfg).alpha = 0.7) ∧
    ((cfg.opacity = none ∨ ∃ v, cfg.opacity = some v ∧ 1/10 ≤ v ∧ v ≤ 1) →
      (1/10 ≤ (applyEveningGown pts cfg).alpha ∧ (applyEveningGown pts cfg).alpha ≤ 1) ∧
      (1/10 ≤ (applyWeddingDress pts cfg).alpha ∧ (applyWeddingDress pts cfg).alpha ≤ 1) ∧
      (1/10 ≤ (applyCocktailDress pts cfg).alpha ∧ (applyCocktailDress pts cfg).alpha ≤ 1) ∧
      (1/10 ≤ (applyFormalGown pts cfg).alpha ∧ (applyFormalGown pts cfg).alpha ≤ 1)) := by
  have he : (applyEveningGown pts cfg).alpha = cfg.opacity.getD 0.7 := rfl
  have hw : (applyWeddingDress pts cfg).alpha = cfg.opacity.getD 0.8 := rfl
  have hc : (applyCocktailDress pts cfg).alpha = cfg.opacity.getD 0.75 := rfl
  have hf : (applyFormalGown pts cfg).alpha = cfg.opacity.getD 0.7 := rfl
  refine ⟨fun v hv => ?_, fun hn => ?_, fun hr => ?_⟩
  · simp [he, hw, hc, hf, hv]
  · simp [he, hw, hc, hf, hn]
  · rcases hr with hn | ⟨v, hv, hv1, hv2⟩
    · simp only [he, hw, hc, hf, hn, Option.getD_none]
      refine ⟨⟨by norm_num, by norm_num⟩, ⟨by norm_num, by norm_num⟩,
        ⟨by norm_num, by norm_num⟩, ⟨by norm_num, by norm_num⟩⟩
    · simp only [he, hw, hc, hf, hv, Option.getD_some]
      exact ⟨⟨hv1, hv2⟩, ⟨hv1, hv2⟩, ⟨hv1, hv2⟩, ⟨hv1, hv2⟩⟩

/-- Witness for C6: with a configured opacity of 1/2 every garment
blends with exactly 1/2, inside [0.1, 1.0]. -/
theorem claim_C6_witness :
    (applyEveningGown []
      { dressType := none, opacity := some (1/2), bodice_color := none,
        skirt_color := none, dress_color := none, include_veil := none }).alpha
      = 1/2 :=
  ((claim_C6 []
      { dressType := none, opacity := some (1/2), bodice_color := none,
        skirt_color := none, dress_color := none, include_veil := none }).1
    (1/2) rfl).1

/-- Counterexample to C6 as stated: a caller-supplied opacity of 2 is
used as the blend weight unchanged, outside [0.1, 1.0] — no clamping
happens anywhere on the path. -/
theorem counterexample_C6 :
    (applyEveningGown []
      { dressType := none, opacity := some 2, bodice_color := none,
        skirt_color := none, dress_color := none, include_veil := none }).alpha
        = 2 ∧
    ¬ ((2 : ℚ) ≤ 1) := by
  refine ⟨rfl, by norm_num⟩

/-- Claim C1 (amended): on a connected session, every inbound frame
message that carries non-empty frame data yields exactly one
frame_result — one on processing success, one on processing failure
(exception included) — never zero and never more than one; a frame
message whose frame data is missing or empty yields no response at all
(only a warning is logged; see the counterexample). -/
theorem claim_C1 (st : ARManagerState) (sid : String) (fd : Option String)
    (dt : Option String) (outcome : Except String WsFrameOutcome) (ms : ℚ)
    (hconn : (st.active_connections.lookup sid).isSome = true)
    (hfd : frameDataTruthy fd = true) :
    countFrameResults (handleWsMessage st sid (.frame fd dt) outcome ms).2 = 1 := by
  simp only [handleWsMessage, hfd, if_true]
  cases outcome with
  | error e => simp [sendPersonal, hconn, countFrameResults]
  | ok r =>
      cases hl : st.user_sessions.lookup sid with
      | none => simp [sendPersonal, hconn, countFrameResults]
      | some d => simp [sendPersonal, hconn, countFrameResults]

/-- A manager state with two connected sessions s1 and s2. -/
def exMgrState : ARManagerState :=
  { active_connections := [("s1", 0), ("s2", 1)],
    user_sessions :=
      [("s1", { connected_at := 0, frame_count := 3, current_dress := none,
                last_processing_time := none }),
       ("s2", { connected_at := 1, frame_count := 7,
                current_dress := some "evening_gown",
                last_processing_time := some 12 })] }

/-- Witness for C1 at a concrete state: a frame message with payload on
connected session s1 produces exactly one frame_result. -/
theorem claim_C1_witness :
    countFrameResults (handleWsMessage exMgrState "s1"
      (.frame (some "data:image/jpeg;base64,Zg==") (some "evening_gown"))
      (.ok { success := true }) 5).2 = 1 :=
  claim_C1 exMgrState "s1" (some "data:image/jpeg;base64,Zg==")
    (some "evening_gown") (.ok { success := true }) 5 (by decide) (by decide)

/-- Counterexample to C1 as stated: a frame message carrying no frame
data on a connected session produces zero frame_result messages — the
handler only logs a warning — not the one the claim demands. -/
theorem counterexample_C1 :
    countFrameResults (handleWsMessage exMgrState "s1"
      (.frame none (some "evening_gown")) (.ok { success := true }) 5).2 = 0 ∧
    (0 : ℕ) ≠ 1 := by
  exact ⟨rfl, by decide⟩

/-- Claim C8: session cleanup is idempotent — a second disconnect of the
same session id is a no-op on both registries (and, being a total
function, raises nothing) — and disconnecting one session preserves
every other session's connection entry and statistics record. -/
theorem claim_C8 (st : ARManagerState) (sid : String) :
    arDisconnect (arDisconnect st sid) sid = arDisconnect st sid ∧
    (∀ s, s ≠ sid →
      (arDisconnect st sid).user_sessions.lookup s = st.user_sessions.lookup s ∧
      (arDisconnect st sid).active_connections.lookup s =
        st.active_connections.lookup s) := by
  refine ⟨?_, fun s hs => ⟨?_, ?_⟩⟩
  · unfold arDisconnect
    simp [dictRemove_idem]
  · exact dictRemove_lookup_ne sid s hs st.user_sessions
  · exact dictRemove_lookup_ne sid s hs st.active_connections

/-- Witness for C8 at a concrete two-session state: double-disconnect of
s1 equals single disconnect, and s2's statistics record is untouched. -/
theorem claim_C8_witness :
    arDisconnect (arDisconnect exMgrState "s1") "s1" = arDisconnect exMgrState "s1" ∧
    (arDisconnect exMgrState "s1").user_sessions.lookup "s2" =
      exMgrState.user_sessions.lookup "s2" :=
  ⟨(claim_C8 exMgrState "s1").1,
   ((claim_C8 exMgrState "s1").2 "s2" (by decide)).1⟩

/-- Claim C4: per shared landmark, the fused coordinate is the
confidence-weighted average when the confidences are not both zero and
the unweighted midpoint when both are zero; the fused confidence always
equals the larger source confidence (in every branch); and with equal
source confidences, swapping the two sources leaves the fused
coordinates unchanged.  Confidences are nonnegative (they are
visibility/score values in [0,1]). -/
theorem claim_C4 :
    (∀ x1 y1 c1 x2 y2 c2 : ℚ, 0 ≤ c1 → 0 ≤ c2 →
      (¬(c1 = 0 ∧ c2 = 0) →
        (fuseLandmark x1 y1 c1 x2 y2 c2).1 = (x1 * c1 + x2 * c2) / (c1 + c2) ∧
        (fuseLandmark x1 y1 c1 x2 y2 c2).2.1 = (y1 * c1 + y2 * c2) / (c1 + c2)) ∧
      ((c1 = 0 ∧ c2 = 0) →
        (fuseLandmark x1 y1 c1 x2 y2 c2).1 = (x1 + x2) / 2 ∧
        (fuseLandmark x1 y1 c1 x2 y2 c2).2.1 = (y1 + y2) / 2) ∧
      (fuseLandmark x1 y1 c1 x2 y2 c2).2.2 = max c1 c2 ∧
      (c1 = c2 →
        (fuseLandmark x1 y1 c1 x2 y2 c2).1 = (fuseLandmark x2 y2 c2 x1 y1 c1).1 ∧
        (fuseLandmark x1 y1 c1 x2 y2 c2).2.1 = (fuseLandmark x2 y2 c2 x1 y1 c1).2.1)) ∧
    (∀ (mpLms : List MPLandmark) (tfPose : PoseEstimation) (h w : ℚ),
      (∀ l ∈ mpLms, 0 ≤ l.visibility) →
      (∀ kp ∈ tfPose.keypoints, 0 ≤ kp.confidence) →
      ∀ e ∈ combinePoseEstimates mpLms tfPose h w,
        e.confidence = max e.mediapipe_conf e.tensorflow_conf) := by
  have conf_max : ∀ x1 y1 c1 x2 y2 c2 : ℚ, 0 ≤ c1 → 0 ≤ c2 →
      (fuseLandmark x1 y1 c1 x2 y2 c2).2.2 = max c1 c2 := by
    intro x1 y1 c1 x2 y2 c2 h1 h2
    unfold fuseLandmark
    by_cases hpos : 0 < c1 + c2
    · simp [hpos]
    · have hc1 : c1 = 0 := by linarith
      have hc2 : c2 = 0 := by linarith
      simp [hpos, hc1, hc2]
  constructor
  · intro x1 y1 c1 x2 y2 c2 h1 h2
    refine ⟨fun hnz => ?_, fun hz => ?_, conf_max x1 y1 c1 x2 y2 c2 h1 h2,
      fun heq => ?_⟩
    · have hpos : 0 < c1 + c2 := by
        rcases lt_or_eq_of_le h1 with h | h
        · linarith
        · rcases lt_or_eq_of_le h2 with h' | h'
          · linarith
          · exact absurd ⟨h.symm, h'.symm⟩ hnz
      unfold fuseLandmark
      simp [hpos]
    · obtain ⟨hc1, hc2⟩ := hz
      subst hc1; subst hc2
      unfold fuseLandmark
      norm_num
    · subst heq
      unfold fuseLandmark
      by_cases hpos : 0 < c1 + c1
      · have hne : c1 + c1 ≠ 0 := ne_of_gt hpos
        constructor <;> · simp only [hpos, if_true]; ring_nf
      · constructor <;> · simp only [hpos, if_false]; ring_nf
  · intro mpLms tfPose h w hmp htf e he
    unfold combinePoseEstimates at he
    rw [List.mem_filterMap] at he
    obtain ⟨p, _, hp⟩ := he
    cases hmpl : mpLms.get? p.1 with
    | none => rw [hmpl] at hp; exact absurd hp (by simp)
    | some mpLm =>
        cases htfk : tfPose.keypoints.get? p.2 with
        | none => rw [hmpl, htfk] at hp; exact absurd hp (by simp)
        | some tfKp =>
            rw [hmpl, htfk] at hp
            simp only [Option.some_inj] at hp
            subst hp
            simp only
            exact conf_max _ _ _ _ _ _
              (hmp mpLm (List.get?_mem hmpl))
              (htf tfKp (List.get?_mem htfk))

/-- Witness for C4 at concrete values: fusing two equal-confidence
sources (conf 1/2) at (10,20) and (30,40) gives the midpoint either way
and fused confidence 1/2 = max. -/
theorem claim_C4_witness :
    (fuseLandmark 10 20 (1/2) 30 40 (1/2)).2.2 = max (1/2 : ℚ) (1/2) ∧
    (fuseLandmark 10 20 (1/2) 30 40 (1/2)).1 =
      (fuseLandmark 30 40 (1/2) 10 20 (1/2)).1 :=
  ⟨(claim_C4.1 10 20 (1/2) 30 40 (1/2) (by norm_num) (by norm_num)).2.2.1,
   ((claim_C4.1 10 20 (1/2) 30 40 (1/2) (by norm_num) (by norm_num)).2.2.2
      rfl).1⟩

/-- Claim C9: when the secondary model is unavailable or its inference
fails, enhance_pose_with_tensorflow still returns (it is a total
function — every exception in its try block is caught) a result whose
mediapipe_pose is the primary pose and whose tensorflow_pose is None;
the RuntimeError for an unavailable model is raised only by
estimate_pose_movenet itself, i.e. only when the enhancement entry point
is invoked directly. -/
theorem claim_C9 (st : TFEstimatorState) (mpPose : MPPoseResult)
    (inference : Except String PoseEstimation) (seg : List ℕ) (h w : ℚ)
    (hfail : movenetAvailable st = false ∨ ∃ e, inference = Except.error e) :
    (enhancePoseWithTensorflow st mpPose inference seg h w).mediapipe_pose = mpPose ∧
    (enhancePoseWithTensorflow st mpPose inference seg h w).tensorflow_pose = none ∧
    (movenetAvailable st = false →
      estimatePoseMovenet st inference =
        Except.error "MoveNet model not available - TensorFlow not installed") := by
  have herr : ∃ e, estimatePoseMovenet st inference = Except.error e := by
    rcases hfail with hna | ⟨e, he⟩
    · exact ⟨"MoveNet model not available - TensorFlow not installed",
        by simp [estimatePoseMovenet, hna]⟩
    · unfold estimatePoseMovenet
      by_cases hav : movenetAvailable st
      · exact ⟨e, by simp [hav, he]⟩
      · exact ⟨"MoveNet model not available - TensorFlow not installed",
          by simp [hav]⟩
  obtain ⟨e, he⟩ := herr
  refine ⟨?_, ?_, fun hna => by simp [estimatePoseMovenet, hna]⟩ <;>
    simp [enhancePoseWithTensorflow, he]

/-- Witness for C9: with TensorFlow absent (no flags, no model), the
enhancement path returns the MediaPipe pose with tensorflow_pose None,
and the direct entry point raises. -/
theorem claim_C9_witness :
    (enhancePoseWithTensorflow ⟨false, false, none⟩ ⟨none⟩
        (.ok ⟨[], 0, (0, 0, 0, 0)⟩) [] 10 10).mediapipe_pose = ⟨none⟩ ∧
    (enhancePoseWithTensorflow ⟨false, false, none⟩ ⟨none⟩
        (.ok ⟨[], 0, (0, 0, 0, 0)⟩) [] 10 10).tensorflow_pose = none ∧
    (movenetAvailable ⟨false, false, none⟩ = false →
      estimatePoseMovenet ⟨false, false, none⟩ (.ok ⟨[], 0, (0, 0, 0, 0)⟩) =
        Except.error "MoveNet model not available - TensorFlow not installed") :=
  claim_C9 ⟨false, false, none⟩ ⟨none⟩ (.ok ⟨[], 0, (0, 0, 0, 0)⟩) [] 10 10
    (Or.inl (by decide))

theorem euclid_two_smul (p q : ℝ × ℝ) :
    euclid (2 * p.1, 2 * p.2) (2 * q.1, 2 * q.2) = 2 * euclid p q := by
  unfold euclid
  rw [show (2 * p.1 - 2 * q.1) ^ 2 + (2 * p.2 - 2 * q.2) ^ 2 =
        4 * ((p.1 - q.1) ^ 2 + (p.2 - q.2) ^ 2) from by ring]
  rw [show (4 : ℝ) = 2 ^ 2 from by norm_num]
  rw [Real.sqrt_mul (by positivity) _]
  rw [Real.sqrt_sq (by norm_num : (0 : ℝ) ≤ 2)]

theorem pixelPointsAR_get (lms : List Landmark) (h w : ℝ) (i : ℕ) :
    (pixelPointsAR lms h w).get? i =
      (lms.get? i).map fun l => (l.x * w, l.y * h) := by
  simp [pixelPointsAR, List.get?_map]

theorem pixelPointsAR_scale2_get (lms : List Landmark) (h w : ℝ) (i : ℕ) :
    (pixelPointsAR (scaleLandmarks 2 lms) h w).get? i =
      ((pixelPointsAR lms h w).get? i).map fun r => (2 * r.1, 2 * r.2) := by
  simp only [pixelPointsAR, scaleLandmarks, List.map_map, List.get?_map]
  cases lms.get? i with
  | none => rfl
  | some l =>
      simp only [Option.map_some', Function.comp_apply]
      rw [mul_assoc, mul_assoc]

/-- Claim C3: each distance-based measurement of _calculate_measurements
equals the Euclidean pixel distance between its paired keypoints divided
by the scale factor (the shoulder-elbow-wrist chain summed, then
divided), whenever those keypoints exist; consequently deriving with
scale_factor 1 on a pose and with scale_factor 2 on the same pose with
every pixel coordinate doubled yields exactly equal measurement sets
(exact over the reals, hence within any floating-point tolerance). -/
theorem claim_C3 (lms : List Landmark) (h w s : ℝ) (hs : 0 < s) :
    (∀ p q, (pixelPointsAR lms h w).get? 11 = some p →
      (pixelPointsAR lms h w).get? 12 = some q →
      (calcMeasurementsAR lms h w s).shoulder_width = some (euclid p q / s)) ∧
    (∀ p q, (pixelPointsAR lms h w).get? 11 = some p →
      (pixelPointsAR lms h w).get? 23 = some q →
      (calcMeasurementsAR lms h w s).torso_length = some (euclid p q / s)) ∧
    (∀ p q, (pixelPointsAR lms h w).get? 23 = some p →
      (pixelPointsAR lms h w).get? 24 = some q →
      (calcMeasurementsAR lms h w s).hip_width = some (euclid p q / s)) ∧
    (∀ a b c, (pixelPointsAR lms h w).get? 11 = some a →
      (pixelPointsAR lms h w).get? 13 = some b →
      (pixelPointsAR lms h w).get? 15 = some c →
      (calcMeasurementsAR lms h w s).arm_length =
        some ((euclid a b + euclid b c) / s)) ∧
    calcMeasurementsAR (scaleLandmarks 2 lms) h w 2 =
      calcMeasurementsAR lms h w 1 := by
  refine ⟨fun p q hp hq => ?_, fun p q hp hq => ?_, fun p q hp hq => ?_,
    fun a b c ha hb hc => ?_, ?_⟩
  · rw [List.get?_eq_getElem?] at hp hq
    simp [calcMeasurementsAR, hp, hq]
  · rw [List.get?_eq_getElem?] at hp hq
    simp [calcMeasurementsAR, hp, hq]
  · rw [List.get?_eq_getElem?] at hp hq
    simp [calcMeasurementsAR, hp, hq]
  · rw [List.get?_eq_getElem?] at ha hb hc
    simp [calcMeasurementsAR, ha, hb, hc]
  · simp only [calcMeasurementsAR, ARMeasurements.mk.injEq]
    refine ⟨?_, ?_, ?_, ?_⟩
    · rw [pixelPointsAR_scale2_get lms h w 11, pixelPointsAR_scale2_get lms h w 12]
      cases (pixelPointsAR lms h w).get? 11 with
      | none => rfl
      | some p =>
          cases (pixelPointsAR lms h w).get? 12 with
          | none => rfl
          | some q =>
              simp only [Option.map_some']
              congr 1
              rw [euclid_two_smul, div_one]
              ring
    · rw [pixelPointsAR_scale2_get lms h w 11, pixelPointsAR_scale2_get lms h w 23]
      cases (pixelPointsAR lms h w).get? 11 with
      | none => rfl
      | some p =>
          cases (pixelPointsAR lms h w).get? 23 with
          | none => rfl
          | some q =>
              simp only [Option.map_some']
              congr 1
              rw [euclid_two_smul, div_one]
              ring
    · rw [pixelPointsAR_scale2_get lms h w 23, pixelPointsAR_scale2_get lms h w 24]
      cases (pixelPointsAR lms h w).get? 23 with
      | none => rfl
      | some p =>
          cases (pixelPointsAR lms h w).get? 24 with
          | none => rfl
          | some q =>
              simp only [Option.map_some']
              congr 1
              rw [euclid_two_smul, div_one]
              ring
    · rw [pixelPointsAR_scale2_get lms h w 11, pixelPointsAR_scale2_get lms h w 13,
        pixelPointsAR_scale2_get lms h w 15]
      cases (pixelPointsAR lms h w).get? 11 with
      | none => rfl
      | some a =>
          cases (pixelPointsAR lms h w).get? 13 with
          | none => rfl
          | some b =>
              cases (pixelPointsAR lms h w).get? 15 with
              | none => rfl
              | some c =>
                  simp only [Option.map_some']
                  congr 1
                  rw [euclid_two_smul, euclid_two_smul, div_one]
                  ring

/-- A 25-landmark pose for the AR measurement path: shoulders at
(100,50)/(200,50) and hips at (110,300)/(190,300) in pixel space on a
1x1 scale. -/
def exArLms : List Landmark :=
  [⟨0, 0, 0⟩, ⟨0, 0, 0⟩, ⟨0, 0, 0⟩, ⟨0, 0, 0⟩, ⟨0, 0, 0⟩, ⟨0, 0, 0⟩,
   ⟨0, 0, 0⟩, ⟨0, 0, 0⟩, ⟨0, 0, 0⟩, ⟨0, 0, 0⟩, ⟨0, 0, 0⟩,
   ⟨100, 50, 0⟩, ⟨200, 50, 0⟩,
   ⟨0, 0, 0⟩, ⟨0, 0, 0⟩, ⟨0, 0, 0⟩, ⟨0, 0, 0⟩, ⟨0, 0, 0⟩, ⟨0, 0, 0⟩,
   ⟨0, 0, 0⟩, ⟨0, 0, 0⟩, ⟨0, 0, 0⟩, ⟨0, 0, 0⟩,
   ⟨110, 300, 0⟩, ⟨190, 300, 0⟩]

/-- Witness for C3 at a concrete pose and scale factor 1: doubling every
pixel coordinate and deriving with scale factor 2 reproduces the
original measurement set. -/
theorem claim_C3_witness :
    calcMeasurementsAR (scaleLandmarks 2 exArLms) 1 1 2 =
      calcMeasurementsAR exArLms 1 1 1 :=
  (claim_C3 exArLms 1 1 1 (by norm_num)).2.2.2.2

/-- Claim C5: for a pose whose shoulders project to (100,50)/(200,50)
and hips to (110,300)/(190,300), the AR measurement derivation with
scale factor 1 yields shoulder_width exactly 100 and hip_width exactly
80, and the single-photo derivation yields bust, waist and hips within
the modelled-noise bound B (plus the 0.05 rounding half-step) of the
conversion-factor values 4.0 = 100*0.04, 3.06 = (100+80)/2*0.85*0.04 and
3.2 = 80*0.04. -/
theorem claim_C5 (lmsR : List Landmark) (hR wR : ℝ)
    (lmsQ : List PhotoLandmark) (hQ wQ : ℚ) (nb nw nh nt B : ℚ)
    (p0 p27 p28 : ℚ × ℚ)
    (h11R : (pixelPointsAR lmsR hR wR).get? 11 = some (100, 50))
    (h12R : (pixelPointsAR lmsR hR wR).get? 12 = some (200, 50))
    (h23R : (pixelPointsAR lmsR hR wR).get? 23 = some (110, 300))
    (h24R : (pixelPointsAR lmsR hR wR).get? 24 = some (190, 300))
    (h0Q : (lmsQ.get? 0).map (photoPixel wQ hQ) = some p0)
    (h11Q : (lmsQ.get? 11).map (photoPixel wQ hQ) = some (100, 50))
    (h12Q : (lmsQ.get? 12).map (photoPixel wQ hQ) = some (200, 50))
    (h23Q : (lmsQ.get? 23).map (photoPixel wQ hQ) = some (110, 300))
    (h24Q : (lmsQ.get? 24).map (photoPixel wQ hQ) = some (190, 300))
    (h27Q : (lmsQ.get? 27).map (photoPixel wQ hQ) = some p27)
    (h28Q : (lmsQ.get? 28).map (photoPixel wQ hQ) = some p28)
    (hnb : |nb| ≤ B) (hnw : |nw| ≤ B) (hnh : |nh| ≤ B) :
    (calcMeasurementsAR lmsR hR wR 1).shoulder_width = some 100 ∧
    (calcMeasurementsAR lmsR hR wR 1).hip_width = some 80 ∧
    |(calcPhotoMeasurements lmsQ hQ wQ (nb, nw, nh, nt)).bust - 4| ≤ B + 1/20 ∧
    |(calcPhotoMeasurements lmsQ hQ wQ (nb, nw, nh, nt)).waist - 3.06| ≤ B + 1/20 ∧
    |(calcPhotoMeasurements lmsQ hQ wQ (nb, nw, nh, nt)).hips - 3.2| ≤ B + 1/20 := by
  have hsw : euclid ((100 : ℝ), (50 : ℝ)) ((200 : ℝ), (50 : ℝ)) = 100 := by
    unfold euclid
    rw [show ((100 : ℝ) - 200) ^ 2 + ((50 : ℝ) - 50) ^ 2 = 100 ^ 2 from by norm_num]
    exact Real.sqrt_sq (by norm_num)
  have hhw : euclid ((110 : ℝ), (300 : ℝ)) ((190 : ℝ), (300 : ℝ)) = 80 := by
    unfold euclid
    rw [show ((110 : ℝ) - 190) ^ 2 + ((300 : ℝ) - 300) ^ 2 = 80 ^ 2 from by norm_num]
    exact Real.sqrt_sq (by norm_num)
  have heval := calcPhoto_eval lmsQ hQ wQ (nb, nw, nh, nt) p0 (100, 50) (200, 50)
    (110, 300) (190, 300) p27 p28 h0Q h11Q h12Q h23Q h24Q h27Q h28Q
  rw [List.get?_eq_getElem?] at h11R h12R h23R h24R
  refine ⟨?_, ?_, ?_, ?_, ?_⟩
  · simp [calcMeasurementsAR, h11R, h12R, hsw]
  · simp [calcMeasurementsAR, h23R, h24R, hhw]
  · rw [heval]
    show |round1 (|(100 : ℚ) - 200| * 0.04 + nb) - 4| ≤ B + 1/20
    rw [show |(100 : ℚ) - 200| * 0.04 = (4 : ℚ) from by norm_num]
    exact round1_noise_close 4 nb B hnb
  · rw [heval]
    show |round1 ((|(100 : ℚ) - 200| + |(110 : ℚ) - 190|) / 2 * 0.85 * 0.04 + nw)
        - 3.06| ≤ B + 1/20
    rw [show (|(100 : ℚ) - 200| + |(110 : ℚ) - 190|) / 2 * 0.85 * 0.04 = (3.06 : ℚ)
      from by norm_num]
    exact round1_noise_close 3.06 nw B hnw
  · rw [heval]
    show |round1 (|(110 : ℚ) - 190| * 0.04 + nh) - 3.2| ≤ B + 1/20
    rw [show |(110 : ℚ) - 190| * 0.04 = (3.2 : ℚ) from by norm_num]
    exact round1_noise_close 3.2 nh B hnh

/-- Witness for C5 at the concrete synthetic pose (zero noise, bound 0):
shoulder_width 100 and hip_width 80 exactly, and bust/waist/hips within
half a rounding step of 4.0, 3.06 and 3.2. -/
theorem claim_C5_witness :
    (calcMeasurementsAR exArLms 1 1 1).shoulder_width = some 100 ∧
    (calcMeasurementsAR exArLms 1 1 1).hip_width = some 80 ∧
    |(calcPhotoMeasurements lowVisPhotoLms 1 1 (0, 0, 0, 0)).bust - 4| ≤ 0 + 1/20 ∧
    |(calcPhotoMeasurements lowVisPhotoLms 1 1 (0, 0, 0, 0)).waist - 3.06| ≤ 0 + 1/20 ∧
    |(calcPhotoMeasurements lowVisPhotoLms 1 1 (0, 0, 0, 0)).hips - 3.2| ≤ 0 + 1/20 :=
  claim_C5 exArLms 1 1 lowVisPhotoLms 1 1 0 0 0 0 0 (0, 0) (0, 400) (0, 400)
    (by rw [pixelPointsAR_get, show exArLms.get? 11 = some ⟨100, 50, 0⟩ from rfl]
        simp)
    (by rw [pixelPointsAR_get, show exArLms.get? 12 = some ⟨200, 50, 0⟩ from rfl]
        simp)
    (by rw [pixelPointsAR_get, show exArLms.get? 23 = some ⟨110, 300, 0⟩ from rfl]
        simp)
    (by rw [pixelPointsAR_get, show exArLms.get? 24 = some ⟨190, 300, 0⟩ from rfl]
        simp)
    (by rw [show lowVisPhotoLms.get? 0 = some ⟨0, 0, 0⟩ from rfl]
        simp [photoPixel])
    (by rw [show lowVisPhotoLms.get? 11 = some ⟨100, 50, 0⟩ from rfl]
        simp [photoPixel])
    (by rw [show lowVisPhotoLms.get? 12 = some ⟨200, 50, 0⟩ from rfl]
        simp [photoPixel])
    (by rw [show lowVisPhotoLms.get? 23 = some ⟨110, 300, 0⟩ from rfl]
        simp [photoPixel])
    (by rw [show lowVisPhotoLms.get? 24 = some ⟨190, 300, 0⟩ from rfl]
        simp [photoPixel])
    (by rw [show lowVisPhotoLms.get? 27 = some ⟨0, 400, 0⟩ from rfl]
        simp [photoPixel])
    (by rw [show lowVisPhotoLms.get? 28 = some ⟨0, 400, 0⟩ from rfl]
        simp [photoPixel])
    (by norm_num) (by norm_num) (by norm_num)

end StitcheSense
